import Mathlib

/-!
Verification of the honeypot conversation engine (`src/honeypot/main.py`).

Texts are modelled as `List Char`; Python's `x in s` substring test is the
`isSub` predicate below, `str.lower()` is a character-wise `Char.toLower`,
`str.split(sep)` / `str.split()` are modelled by `takeBefore` /
`dropAfterFirst` / `splitWs`.  The in-memory `sessions` dict is an
association list, HTTP 401 is `Except.error 401`, `random.choice` is an
explicit index parameter `r` (the pick is `r % 4`), `datetime.now()` is an
explicit `now` parameter, and `background_tasks.add_task(send_callback, ...)`
is recorded in the `reportTriggered` field of the handler result.
-/

/-- Python prefix test on character lists (`needle` is a prefix of `hay`). -/
def lpre : List Char → List Char → Bool
  | [], _ => true
  | _ :: _, [] => false
  | a :: as, b :: bs => (a == b) && lpre as bs

/-- Python's substring containment `needle in hay` on character lists. -/
def isSub (needle : List Char) : List Char → Bool
  | [] => needle.isEmpty
  | c :: t => lpre needle (c :: t) || isSub needle t

/-- Python's `str.lower()`, character-wise (all texts involved are ASCII). -/
def lowerCL (s : List Char) : List Char := s.map Char.toLower

/-- Whitespace characters recognised by Python's `str.split()`. -/
def isSpaceCh (c : Char) : Bool :=
  c == ' ' || c == '\t' || c == '\n' || c == '\r' || c == '\x0b' || c == '\x0c'

/-- Helper for `splitWs`: accumulates the current word (reversed). -/
def splitWsAux (cur : List Char) : List Char → List (List Char)
  | [] => if cur.isEmpty then [] else [cur.reverse]
  | c :: t =>
    if isSpaceCh c then
      if cur.isEmpty then splitWsAux [] t else cur.reverse :: splitWsAux [] t
    else splitWsAux (c :: cur) t

/-- Python's `text.split()`: split on whitespace runs, dropping empties. -/
def splitWs (s : List Char) : List (List Char) := splitWsAux [] s

/-- The suffix of `hay` that follows the first occurrence of `sep`
(`none` when `sep` does not occur).  Models indexing `[1]` of a Python
`hay.split(sep)` together with `takeBefore sep`. -/
def dropAfterFirst (sep : List Char) : List Char → Option (List Char)
  | [] => none
  | c :: t =>
    if lpre sep (c :: t) then some (List.drop sep.length (c :: t))
    else dropAfterFirst sep t

/-- The prefix of `hay` strictly before the first occurrence of `sep`
(all of `hay` when `sep` does not occur).  Models indexing `[0]` of a
Python `hay.split(sep)`. -/
def takeBefore (sep : List Char) : List Char → List Char
  | [] => []
  | c :: t =>
    if lpre sep (c :: t) then [] else c :: takeBefore sep t

-- --- Configuration (main.py lines 11, 43) ---

/-- `VALID_API_KEYS = ["sk_test_123456789"]` -/
def VALID_API_KEYS : List (List Char) := [("sk_test_123456789").toList]

/-- `SCAM_KEYWORDS` of `main.py` line 43. -/
def SCAM_KEYWORDS : List (List Char) :=
  [("bank").toList, ("verify").toList, ("block").toList, ("suspend").toList,
   ("upi").toList, ("urgent").toList, ("pan card").toList, ("kyc").toList,
   ("expired").toList]

-- --- Models (main.py lines 19-39) ---

/-- Pydantic `MessageRequest`. -/
structure MessageRequest where
  sender : List Char
  text : List Char
  timestamp : List Char
  deriving DecidableEq, Repr

/-- Pydantic `HoneyPotRequest` (`conversationHistory` and `metadata`
default to empty at the call sites we model). -/
structure HoneyPotRequest where
  sessionId : List Char
  message : MessageRequest
  conversationHistory : List MessageRequest
  metadata : List (List Char × List Char)
  deriving DecidableEq, Repr

/-- Pydantic `HoneyPotResponse`. -/
structure HoneyPotResponse where
  status : List Char
  reply : List Char
  deriving DecidableEq, Repr

/-- One value of the in-memory `sessions` dict:
`{"history": [...], "metadata": {...}, "scam_detected": bool}`. -/
structure SessionData where
  history : List MessageRequest
  metadata : List (List Char × List Char)
  scam_detected : Bool
  deriving DecidableEq, Repr

/-- The `sessions` dict, as an insertion-ordered association list. -/
abbrev Store := List (List Char × SessionData)

/-- Dict lookup `sessions[sid]` / `sid in sessions`. -/
def storeLookup (store : Store) (k : List Char) : Option SessionData :=
  match store with
  | [] => none
  | (k', v) :: rest => if k' = k then some v else storeLookup rest k

/-- Dict write `sessions[sid] = v` (replace in place, or append new key). -/
def storeUpdate (store : Store) (k : List Char) (v : SessionData) : Store :=
  match store with
  | [] => [(k, v)]
  | (k', v') :: rest =>
    if k' = k then (k, v) :: rest else (k', v') :: storeUpdate rest k v

-- --- Logic (main.py lines 43-98) ---

/-- `detect_scam` (main.py lines 45-47). -/
def detect_scam (text : List Char) : Bool :=
  let text_lower := lowerCL text
  SCAM_KEYWORDS.any (fun keyword => isSub keyword text_lower)

/-- The fixed pool of generic stalling replies (main.py lines 64-69). -/
def STALL_REPLIES : List (List Char) :=
  [("I am confused.").toList,
   ("Please tell me what to do.").toList,
   ("Is this official?").toList,
   ("I am getting scared.").toList]

/-- `generate_agent_reply` (main.py lines 49-70).  The Python function
receives `request.dict()` and reads its `conversationHistory` entry; we pass
that list directly.  `random.choice` is modelled by the index `r`. -/
def generate_agent_reply (last_scammer_text : List Char)
    (conversationHistory : List MessageRequest) (r : Nat) : List Char :=
  let history_len := conversationHistory.length
  if history_len < 2 then
    ("Who is this? Why are you messaging me?").toList
  else if isSub (("verify").toList) (lowerCL last_scammer_text) then
    ("I don\x27t know how to verify. Can you help me?").toList
  else if isSub (("bank").toList) (lowerCL last_scammer_text) then
    ("Oh no! My bank account? What happened?").toList
  else if isSub (("upi").toList) (lowerCL last_scammer_text) then
    ("I send money using GPay normally. Is that UPI?").toList
  else
    STALL_REPLIES.getD (r % 4) []

/-- The intelligence report dict built by `extract_intelligence`. -/
structure Intel where
  bankAccounts : List (List Char)
  upiIds : List (List Char)
  phishingLinks : List (List Char)
  phoneNumbers : List (List Char)
  suspiciousKeywords : List (List Char)
  deriving DecidableEq, Repr

/-- The empty intelligence report (main.py lines 74-80). -/
def emptyIntel : Intel := ⟨[], [], [], [], []⟩

/-- `text.split("http")[1].split(" ")[0]` (main.py line 87), evaluated only
under the guard `"http" in text`. -/
def linkCapture (text : List Char) : List Char :=
  match dropAfterFirst (("http").toList) text with
  | some rest => takeBefore ([' ']) (takeBefore (("http").toList) rest)
  | none => []

/-- The body of `extract_intelligence`'s per-message loop
(main.py lines 81-96) as a fold step over the accumulated report. -/
def extractStep (intel : Intel) (msg : MessageRequest) : Intel :=
  if msg.sender = ("user").toList then intel
  else
    let text := msg.text
    let intel1 :=
      if isSub (("http").toList) text then
        { intel with phishingLinks := intel.phishingLinks ++ [linkCapture text] }
      else intel
    let intel2 :=
      if isSub ([('@' : Char)]) text ∧ ("upi").toList ∉ intel1.upiIds then
        { intel1 with
          upiIds := intel1.upiIds ++
            (splitWs text).filter (fun w => isSub ([('@' : Char)]) w) }
      else intel1
    SCAM_KEYWORDS.foldl
      (fun i kw =>
        if isSub kw (lowerCL text) = true ∧ kw ∉ i.suspiciousKeywords then
          { i with suspiciousKeywords := i.suspiciousKeywords ++ [kw] }
        else i)
      intel2

/-- `extract_intelligence` (main.py lines 72-98). -/
def extract_intelligence (history : List MessageRequest) : Intel :=
  history.foldl extractStep emptyIntel

-- --- Endpoint (main.py lines 129-184) ---

/-- The observable outcome of one `chat_handler` call: the updated
`sessions` dict, the HTTP response (`Except.error 401` for the
`HTTPException`), and whether `background_tasks.add_task(send_callback, ...)`
was invoked. -/
structure HandlerResult where
  sessions : Store
  response : Except Nat HoneyPotResponse
  reportTriggered : Bool
  deriving Repr

/-- The session value read or freshly created for the request
(main.py lines 140-146). -/
def sessionBefore (sessions : Store) (request : HoneyPotRequest) : SessionData :=
  (storeLookup sessions request.sessionId).getD
    { history := [], metadata := request.metadata, scam_detected := false }

/-- `chat_handler` (main.py lines 130-184).  `now` is `datetime.now()` and
`r` feeds `random.choice` inside `generate_agent_reply`. -/
def chat_handler (sessions : Store) (request : HoneyPotRequest)
    (x_api_key : List Char) (now : List Char) (r : Nat) : HandlerResult :=
  if x_api_key ∉ VALID_API_KEYS then
    { sessions := sessions, response := Except.error 401, reportTriggered := false }
  else
    let sid := request.sessionId
    let s0 := sessionBefore sessions request
    let s1 : SessionData := { s0 with history := s0.history ++ [request.message] }
    let is_scam := detect_scam request.message.text
    let s2 : SessionData := if is_scam then { s1 with scam_detected := true } else s1
    if s2.scam_detected then
      let reply_text := generate_agent_reply request.message.text request.conversationHistory r
      let our_reply : MessageRequest :=
        { sender := ("user").toList, text := reply_text, timestamp := now }
      let s3 : SessionData := { s2 with history := s2.history ++ [our_reply] }
      { sessions := storeUpdate sessions sid s3,
        response := Except.ok { status := ("success").toList, reply := reply_text },
        reportTriggered := decide (4 ≤ s3.history.length) }
    else
      { sessions := storeUpdate sessions sid s2,
        response := Except.ok
          { status := ("success").toList,
            reply := ("Hello, how can I help you?").toList },
        reportTriggered := false }

/-- One inbound HTTP request together with its environment inputs. -/
structure RequestEvent where
  request : HoneyPotRequest
  x_api_key : List Char
  now : List Char
  r : Nat
  deriving Repr

/-- Run `chat_handler` over a sequence of inbound requests, returning the
final store and the number of report-dispatch triggers that fired. -/
def runHandler (sessions : Store) : List RequestEvent → Store × Nat
  | [] => (sessions, 0)
  | e :: rest =>
    let hr := chat_handler sessions e.request e.x_api_key e.now e.r
    let p := runHandler hr.sessions rest
    (p.1, (if hr.reportTriggered then 1 else 0) + p.2)

/-- The reply text of a successful handler result (empty on HTTP error). -/
def replyOf (hr : HandlerResult) : List Char :=
  match hr.response with
  | Except.ok resp => resp.reply
  | Except.error _ => []

/-- The stored history length of a session id (`0` when absent). -/
def historyLen (st : Store) (sid : List Char) : Nat :=
  match storeLookup st sid with
  | some s => s.history.length
  | none => 0

/-- The stored `scam_detected` flag of a session id (`false` when absent). -/
def scamFlag (st : Store) (sid : List Char) : Bool :=
  match storeLookup st sid with
  | some s => s.scam_detected
  | none => false

/-- The ordered reply policy as the specification words it (first match
wins), with the prior-message count an explicit parameter: the
confused-identity opener below 2 prior messages, then the verify, bank and
upi branches on the lower-cased text, otherwise membership in the fixed pool
of four generic stalling replies. -/
def specReplyPolicy (priorCount : Nat) (text reply : List Char) : Prop :=
  if priorCount < 2 then
    reply = ("Who is this? Why are you messaging me?").toList
  else if isSub (("verify").toList) (lowerCL text) = true then
    reply = ("I don\x27t know how to verify. Can you help me?").toList
  else if isSub (("bank").toList) (lowerCL text) = true then
    reply = ("Oh no! My bank account? What happened?").toList
  else if isSub (("upi").toList) (lowerCL text) = true then
    reply = ("I send money using GPay normally. Is that UPI?").toList
  else reply ∈ STALL_REPLIES

-- --- Example inputs used by witnesses and counterexamples ---

/-- An adversary message whose text contains the payment handle `a@b`. -/
def msgHandle1 : MessageRequest :=
  { sender := ("scammer").toList, text := ("pay a@b now").toList,
    timestamp := ("t1").toList }

/-- A second, distinct adversary message with the same handle `a@b`. -/
def msgHandle2 : MessageRequest :=
  { sender := ("scammer").toList, text := ("pay a@b now").toList,
    timestamp := ("t2").toList }

/-- An adversary message whose text is the scam keyword `bank`. -/
def bankMsg : MessageRequest :=
  { sender := ("scammer").toList, text := ("bank").toList,
    timestamp := ("t").toList }

/-- One authorized inbound request carrying `bankMsg` for session `s`. -/
def bankEvent : RequestEvent :=
  { request := { sessionId := ("s").toList, message := bankMsg,
                 conversationHistory := [], metadata := [] },
    x_api_key := ("sk_test_123456789").toList, now := ("n").toList, r := 0 }

/-- A first adversary message stored for session `s`. -/
def priorScamMsg : MessageRequest :=
  { sender := ("scammer").toList,
    text := ("your bank account is blocked").toList,
    timestamp := ("t1").toList }

/-- The agent reply stored for session `s` after the first round. -/
def priorAgentMsg : MessageRequest :=
  { sender := ("user").toList,
    text := ("Who is this? Why are you messaging me?").toList,
    timestamp := ("t2").toList }

/-- A store in which session `s` already holds two messages and has its
`scam_detected` flag set. -/
def storeWithTwo : Store :=
  [(("s").toList,
    { history := [priorScamMsg, priorAgentMsg], metadata := [],
      scam_detected := true })]

/-- A follow-up request for session `s` whose text contains `verify` and
whose `conversationHistory` field is empty. -/
def verifyReq : HoneyPotRequest :=
  { sessionId := ("s").toList,
    message := { sender := ("scammer").toList, text := ("please verify").toList,
                 timestamp := ("t3").toList },
    conversationHistory := [], metadata := [] }

/-- A follow-up request for session `s` with benign text. -/
def helloReq : HoneyPotRequest :=
  { sessionId := ("s").toList,
    message := { sender := ("scammer").toList, text := ("hello friend").toList,
                 timestamp := ("t4").toList },
    conversationHistory := [], metadata := [] }

/-- A first request for a fresh session `s2` with benign text. -/
def benignReq : HoneyPotRequest :=
  { sessionId := ("s2").toList,
    message := { sender := ("alice").toList, text := ("Hi there").toList,
                 timestamp := ("t0").toList },
    conversationHistory := [], metadata := [] }

-- --- Helper lemmas ---

theorem lpre_iff (n h : List Char) : lpre n h = true ↔ ∃ t, h = n ++ t := by
  induction n generalizing h with
  | nil => simp [lpre]
  | cons a as ih =>
    cases h with
    | nil => simp [lpre]
    | cons b bs =>
      simp only [lpre, Bool.and_eq_true, beq_iff_eq, ih, List.cons_append,
        List.cons.injEq]
      constructor
      · rintro ⟨rfl, t, rfl⟩; exact ⟨t, rfl, rfl⟩
      · rintro ⟨t, rfl, rfl⟩; exact ⟨rfl, t, rfl⟩

theorem isSub_iff (n h : List Char) :
    isSub n h = true ↔ ∃ p t, h = p ++ n ++ t := by
  induction h with
  | nil =>
    simp only [isSub, List.isEmpty_iff]
    constructor
    · rintro rfl; exact ⟨[], [], rfl⟩
    · rintro ⟨p, t, h⟩
      rcases List.append_eq_nil.mp (List.append_eq_nil.mp h.symm).1 with ⟨-, h2⟩
      exact h2
  | cons c cs ih =>
    simp only [isSub, Bool.or_eq_true, lpre_iff, ih]
    constructor
    · rintro (⟨t, ht⟩ | ⟨p, t, rfl⟩)
      · exact ⟨[], t, by simp [ht]⟩
      · exact ⟨c :: p, t, rfl⟩
    · rintro ⟨p, t, hp⟩
      cases p with
      | nil => exact Or.inl ⟨t, by simpa using hp⟩
      | cons x xs =>
        rw [List.cons_append, List.cons_append] at hp
        injection hp with h1 h2
        exact Or.inr ⟨xs, t, h2⟩

theorem storeLookup_update_self (st : Store) (k : List Char) (v : SessionData) :
    storeLookup (storeUpdate st k v) k = some v := by
  induction st with
  | nil => simp [storeUpdate, storeLookup]
  | cons p rest ih =>
    by_cases h : p.1 = k
    · simp [storeUpdate, storeLookup, h]
    · simp [storeUpdate, storeLookup, h, ih]

theorem storeLookup_update_other (st : Store) (k k' : List Char)
    (v : SessionData) (hne : k' ≠ k) :
    storeLookup (storeUpdate st k v) k' = storeLookup st k' := by
  induction st with
  | nil =>
    have hk : ¬ k = k' := fun hh => hne hh.symm
    simp [storeUpdate, storeLookup, hk]
  | cons p rest ih =>
    rcases p with ⟨pk, pv⟩
    simp only [storeUpdate]
    by_cases h : pk = k
    · rw [if_pos h]
      have hk : ¬ k = k' := fun hh => hne hh.symm
      have hpk : ¬ pk = k' := fun hh => hne (hh.symm.trans h)
      simp [storeLookup, hk, hpk]
    · rw [if_neg h]
      simp only [storeLookup]
      by_cases h2 : pk = k'
      · rw [if_pos h2, if_pos h2]
      · rw [if_neg h2, if_neg h2]
        exact ih

-- --- Claim theorems ---

/-- Claim C4: the scam classifier returns true if and only if at least one
configured indicator from `SCAM_KEYWORDS` occurs as a substring of the
lower-cased input text. -/
theorem detect_scam_iff_indicator (text : List Char) :
    detect_scam text = true ↔
      ∃ kw ∈ SCAM_KEYWORDS, ∃ p t, lowerCL text = p ++ kw ++ t := by
  simp only [detect_scam, List.any_eq_true, isSub_iff]

/-- Claim C8: the intelligence extractor is a pure, deterministic function of
the history; running `extract_intelligence` twice over the same unchanged
history yields identical reports. -/
theorem extract_intelligence_deterministic (history : List MessageRequest) :
    extract_intelligence history = extract_intelligence history := rfl

/-- Claim C2, counterexample: the payment handle `a@b` appears in two
different adversary messages and is recorded twice in `upiIds`, so the
extraction is not deduplicating per category. -/
theorem extract_intelligence_duplicate_handle :
    (extract_intelligence [msgHandle1, msgHandle2]).upiIds
        = [("a@b").toList, ("a@b").toList] ∧
      ¬ (extract_intelligence [msgHandle1, msgHandle2]).upiIds.Nodup := by
  decide

/-- A fold preserves a property preserved by each step. -/
theorem foldl_preserve {α β : Type} (P : α → Prop) (f : α → β → α)
    (hf : ∀ a b, P a → P (f a b)) :
    ∀ (l : List β) (a : α), P a → P (l.foldl f a)
  | [], _, ha => ha
  | b :: l, a, ha => foldl_preserve P f hf l (f a b) (hf a b ha)

/-- The suspicious-keyword loop of `extractStep` preserves `Nodup`. -/
theorem keywordFold_nodup (text : List Char) (kws : List (List Char))
    (i : Intel) (h : i.suspiciousKeywords.Nodup) :
    (kws.foldl
      (fun i kw =>
        if isSub kw (lowerCL text) = true ∧ kw ∉ i.suspiciousKeywords then
          { i with suspiciousKeywords := i.suspiciousKeywords ++ [kw] }
        else i)
      i).suspiciousKeywords.Nodup := by
  induction kws generalizing i with
  | nil => exact h
  | cons kw rest ih =>
    simp only [List.foldl_cons]
    apply ih
    by_cases hc : isSub kw (lowerCL text) = true ∧ kw ∉ i.suspiciousKeywords
    · rw [if_pos hc]
      exact List.Nodup.append h (List.nodup_singleton kw)
        (by intro a ha hb; rw [List.mem_singleton] at hb; subst hb; exact hc.2 ha)
    · rw [if_neg hc]; exact h

/-- One `extractStep` preserves `Nodup` of the suspicious-keyword list. -/
theorem extractStep_nodup (intel : Intel) (msg : MessageRequest)
    (h : intel.suspiciousKeywords.Nodup) :
    (extractStep intel msg).suspiciousKeywords.Nodup := by
  unfold extractStep
  by_cases hs : msg.sender = ("user").toList
  · rw [if_pos hs]; exact h
  · rw [if_neg hs]
    apply keywordFold_nodup
    split <;> split <;> simpa using h

/-- Claim C2 (amended): only the suspicious-keyword category is
deduplicated — for every history the `suspiciousKeywords` list of the
report has no duplicates (while `upiIds` and `phishingLinks` may repeat a
value, see the counterexample). -/
theorem extract_intelligence_keywords_nodup (history : List MessageRequest) :
    (extract_intelligence history).suspiciousKeywords.Nodup :=
  foldl_preserve (fun i => i.suspiciousKeywords.Nodup) extractStep
    extractStep_nodup history emptyIntel (by simp [emptyIntel])

/-- Claim C9: agent-authored messages (sender `"user"`, the replies the
handler appends) contribute nothing to the intelligence report: deleting
such a message from the history leaves the report unchanged. -/
theorem extract_intelligence_skips_agent (h1 h2 : List MessageRequest)
    (msg : MessageRequest) (hs : msg.sender = ("user").toList) :
    extract_intelligence (h1 ++ msg :: h2) = extract_intelligence (h1 ++ h2) := by
  unfold extract_intelligence
  rw [List.foldl_append, List.foldl_append, List.foldl_cons]
  congr 1
  unfold extractStep
  rw [if_pos hs]

/-- Witness for claim C9 at a concrete history. -/
theorem extract_intelligence_skips_agent_witness :
    (({ sender := ("user").toList, text := ("bank a@b").toList,
        timestamp := ("t").toList } : MessageRequest).sender = ("user").toList) ∧
    extract_intelligence ([msgHandle1] ++
        ({ sender := ("user").toList, text := ("bank a@b").toList,
           timestamp := ("t").toList } : MessageRequest) :: [msgHandle2]) =
      extract_intelligence ([msgHandle1] ++ [msgHandle2]) :=
  ⟨rfl, extract_intelligence_skips_agent [msgHandle1] [msgHandle2] _ rfl⟩


/-- Characterisation of an authorized `chat_handler` call: the store is
updated at the request's session id with a value whose flag is the old flag
OR-ed with the detector result and whose history grew by 2 (engaged) or 1
(benign); the trigger fires exactly when the engaged branch ran and the new
history length reaches 4. -/
theorem chat_handler_store (sessions : Store) (request : HoneyPotRequest)
    (x_api_key now : List Char) (r : Nat) (hk : x_api_key ∈ VALID_API_KEYS) :
    ∃ s', (chat_handler sessions request x_api_key now r).sessions =
        storeUpdate sessions request.sessionId s' ∧
      s'.scam_detected =
        ((sessionBefore sessions request).scam_detected ||
          detect_scam request.message.text) ∧
      s'.history.length = (sessionBefore sessions request).history.length +
        (if (sessionBefore sessions request).scam_detected ||
            detect_scam request.message.text then 2 else 1) ∧
      (chat_handler sessions request x_api_key now r).reportTriggered =
        (((sessionBefore sessions request).scam_detected ||
            detect_scam request.message.text) &&
          decide (4 ≤ (sessionBefore sessions request).history.length + 2)) := by
  simp only [chat_handler]
  rw [if_neg (not_not_intro hk)]
  cases hd : detect_scam request.message.text <;>
    cases hb : (sessionBefore sessions request).scam_detected
  case false.false =>
    exact ⟨⟨(sessionBefore sessions request).history ++ [request.message],
            (sessionBefore sessions request).metadata, false⟩,
      by simp [hb], by simp [hb], by simp [hb], by simp [hb]⟩
  case false.true =>
    exact ⟨⟨(sessionBefore sessions request).history ++ [request.message] ++
            [⟨("user").toList,
              generate_agent_reply request.message.text request.conversationHistory r, now⟩],
            (sessionBefore sessions request).metadata, true⟩,
      by simp [hb], by simp [hb], by simp [hb], by simp [hb]⟩
  case true.false =>
    exact ⟨⟨(sessionBefore sessions request).history ++ [request.message] ++
            [⟨("user").toList,
              generate_agent_reply request.message.text request.conversationHistory r, now⟩],
            (sessionBefore sessions request).metadata, true⟩,
      by simp [hb], by simp [hb], by simp [hb], by simp [hb]⟩
  case true.true =>
    exact ⟨⟨(sessionBefore sessions request).history ++ [request.message] ++
            [⟨("user").toList,
              generate_agent_reply request.message.text request.conversationHistory r, now⟩],
            (sessionBefore sessions request).metadata, true⟩,
      by simp [hb], by simp [hb], by simp [hb], by simp [hb]⟩

/-- Claim C1 (amended): the report trigger fires on an authorized message
exactly when that message is handled on the engaged branch and the session's
new history length (old length plus the two appends) reaches 4 — so with
continuing engaged messages it fires once per such message and can fire more
than once per session. -/
theorem chat_handler_report_trigger (sessions : Store) (request : HoneyPotRequest)
    (x_api_key now : List Char) (r : Nat) (hk : x_api_key ∈ VALID_API_KEYS) :
    (chat_handler sessions request x_api_key now r).reportTriggered =
      (((sessionBefore sessions request).scam_detected ||
          detect_scam request.message.text) &&
        decide (4 ≤ (sessionBefore sessions request).history.length + 2)) := by
  obtain ⟨s', -, -, -, htrig⟩ := chat_handler_store sessions request x_api_key now r hk
  exact htrig

/-- Witness for claim C1 (amended) at a concrete call. -/
theorem chat_handler_report_trigger_witness :
    (("sk_test_123456789").toList ∈ VALID_API_KEYS) ∧
    (chat_handler [] bankEvent.request ("sk_test_123456789").toList
        ("n").toList 0).reportTriggered =
      (((sessionBefore [] bankEvent.request).scam_detected ||
          detect_scam bankEvent.request.message.text) &&
        decide (4 ≤ (sessionBefore [] bankEvent.request).history.length + 2)) :=
  ⟨by decide,
   chat_handler_report_trigger [] bankEvent.request (("sk_test_123456789").toList)
     (("n").toList) 0 (by decide)⟩

/-- Claim C1, counterexample: three consecutive engaged messages for one
session make the report trigger fire twice (after the second and the third
message), refuting dispatch-at-most-once. -/
theorem chat_handler_report_fires_twice :
    (runHandler [] [bankEvent, bankEvent, bankEvent]).2 = 2 ∧
    ¬ (runHandler [] [bankEvent, bankEvent, bankEvent]).2 ≤ 1 := by
  decide

/-- `generate_agent_reply` satisfies the ordered policy when the policy's
prior-message count is the length of the list the function actually reads. -/
theorem generate_agent_reply_policy (text : List Char)
    (cH : List MessageRequest) (r : Nat) :
    specReplyPolicy cH.length text (generate_agent_reply text cH r) := by
  simp only [specReplyPolicy, generate_agent_reply]
  split_ifs <;> try rfl
  have h4 : r % 4 < 4 := Nat.mod_lt _ (by norm_num)
  rcases (show r % 4 = 0 ∨ r % 4 = 1 ∨ r % 4 = 2 ∨ r % 4 = 3 by omega)
    with h | h | h | h <;> rw [h] <;> simp [STALL_REPLIES]

/-- An authorized call taking the engaged branch replies with
`generate_agent_reply` applied to the inbound text and the caller-supplied
`conversationHistory`. -/
theorem replyOf_chat_handler (sessions : Store) (request : HoneyPotRequest)
    (x_api_key now : List Char) (r : Nat)
    (hk : x_api_key ∈ VALID_API_KEYS)
    (he : ((sessionBefore sessions request).scam_detected ||
        detect_scam request.message.text) = true) :
    replyOf (chat_handler sessions request x_api_key now r) =
      generate_agent_reply request.message.text request.conversationHistory r := by
  simp only [chat_handler]
  rw [if_neg (not_not_intro hk)]
  cases hd : detect_scam request.message.text
  · rw [hd] at he
    simp only [Bool.or_false] at he
    simp [he, replyOf]
  · simp [replyOf]

/-- Claim C3 (amended): on the engaged path the reply equals the first
matching rule of the ordered decision policy, but the fewer-than-2 test of
rule 1 counts the caller-supplied `conversationHistory` field of the request
rather than the session's stored prior messages; the remaining rules and the
stalling-pool fallback are as stated. -/
theorem chat_handler_reply_follows_policy (sessions : Store)
    (request : HoneyPotRequest) (x_api_key now : List Char) (r : Nat)
    (hk : x_api_key ∈ VALID_API_KEYS)
    (he : ((sessionBefore sessions request).scam_detected ||
        detect_scam request.message.text) = true) :
    specReplyPolicy request.conversationHistory.length request.message.text
      (replyOf (chat_handler sessions request x_api_key now r)) := by
  rw [replyOf_chat_handler sessions request x_api_key now r hk he]
  exact generate_agent_reply_policy request.message.text
    request.conversationHistory r

/-- Witness for claim C3 (amended) at a concrete call. -/
theorem chat_handler_reply_follows_policy_witness :
    (("sk_test_123456789").toList ∈ VALID_API_KEYS) ∧
    (((sessionBefore storeWithTwo verifyReq).scam_detected ||
        detect_scam verifyReq.message.text) = true) ∧
    specReplyPolicy verifyReq.conversationHistory.length verifyReq.message.text
      (replyOf (chat_handler storeWithTwo verifyReq
        (("sk_test_123456789").toList) (("n").toList) 0)) :=
  ⟨by decide, by decide,
   chat_handler_reply_follows_policy storeWithTwo verifyReq
     (("sk_test_123456789").toList) (("n").toList) 0 (by decide) (by decide)⟩

/-- Claim C3, counterexample: session `s` holds 2 prior messages and the
inbound text contains `verify`, so the claim's policy (read on the session)
selects the verify-help reply, but the code — reading the request's empty
`conversationHistory` — returns the confused-identity opener. -/
theorem chat_handler_reply_ignores_stored_history :
    ¬ ((sessionBefore storeWithTwo verifyReq).history.length < 2) ∧
    isSub (("verify").toList) (lowerCL verifyReq.message.text) = true ∧
    replyOf (chat_handler storeWithTwo verifyReq
        (("sk_test_123456789").toList) (("n").toList) 0) =
      ("Who is this? Why are you messaging me?").toList ∧
    ("Who is this? Why are you messaging me?").toList ≠
      ("I don\x27t know how to verify. Can you help me?").toList := by
  decide

/-- One `chat_handler` call never lowers any session's `scam_detected`
flag. -/
theorem chat_handler_scamFlag_mono (sessions : Store) (request : HoneyPotRequest)
    (x_api_key now : List Char) (r : Nat) (sid : List Char)
    (h : scamFlag sessions sid = true) :
    scamFlag (chat_handler sessions request x_api_key now r).sessions sid = true := by
  by_cases hk : x_api_key ∈ VALID_API_KEYS
  · obtain ⟨s', hst, hflag, -, -⟩ :=
      chat_handler_store sessions request x_api_key now r hk
    rw [hst]
    by_cases hsid : sid = request.sessionId
    · subst hsid
      unfold scamFlag
      rw [storeLookup_update_self]
      show s'.scam_detected = true
      rw [hflag]
      have hbefore : (sessionBefore sessions request).scam_detected = true := by
        unfold scamFlag at h
        unfold sessionBefore
        cases hl : storeLookup sessions request.sessionId with
        | none => rw [hl] at h; simp at h
        | some s =>
          rw [hl] at h
          simpa using h
      rw [hbefore]
      simp
    · unfold scamFlag
      rw [storeLookup_update_other _ _ _ _ hsid]
      exact h
  · simp only [chat_handler]
    rw [if_pos hk]
    exact h

/-- Claim C5: `scamDetected` is monotonic — once a session's stored flag is
true, it remains true across any further sequence of inbound messages. -/
theorem scamFlag_monotonic (events : List RequestEvent) (sessions : Store)
    (sid : List Char) (h : scamFlag sessions sid = true) :
    scamFlag (runHandler sessions events).1 sid = true := by
  induction events generalizing sessions with
  | nil => exact h
  | cons e rest ih =>
    simp only [runHandler]
    exact ih _ (chat_handler_scamFlag_mono sessions e.request e.x_api_key
      e.now e.r sid h)

/-- Witness for claim C5 at a concrete store and run. -/
theorem scamFlag_monotonic_witness :
    scamFlag storeWithTwo (("s").toList) = true ∧
    scamFlag (runHandler storeWithTwo
        [{ request := helloReq, x_api_key := ("sk_test_123456789").toList,
           now := ("n").toList, r := 0 }]).1 (("s").toList) = true :=
  ⟨by decide,
   scamFlag_monotonic
     [{ request := helloReq, x_api_key := ("sk_test_123456789").toList,
        now := ("n").toList, r := 0 }] storeWithTwo (("s").toList) (by decide)⟩

/-- Growth of the stored history length on one authorized call. -/
theorem chat_handler_historyLen (sessions : Store)
    (request : HoneyPotRequest) (x_api_key now : List Char) (r : Nat)
    (hk : x_api_key ∈ VALID_API_KEYS) :
    historyLen (chat_handler sessions request x_api_key now r).sessions
        request.sessionId =
      historyLen sessions request.sessionId +
        (if (sessionBefore sessions request).scam_detected ||
            detect_scam request.message.text then 2 else 1) := by
  obtain ⟨s', hst, -, hlen, -⟩ :=
    chat_handler_store sessions request x_api_key now r hk
  have hbefore : (sessionBefore sessions request).history.length =
      historyLen sessions request.sessionId := by
    unfold sessionBefore historyLen
    cases storeLookup sessions request.sessionId <;> simp
  have h1 : historyLen (chat_handler sessions request x_api_key now r).sessions
      request.sessionId = s'.history.length := by
    rw [hst]
    unfold historyLen
    rw [storeLookup_update_self]
  rw [hbefore] at hlen
  rw [h1, hlen]

/-- Claim C6: on an authorized inbound message the session's stored history
length grows by exactly 2 on the engaged branch and by exactly 1 on the
benign branch, and in particular never decreases. -/
theorem chat_handler_history_growth (sessions : Store)
    (request : HoneyPotRequest) (x_api_key now : List Char) (r : Nat)
    (hk : x_api_key ∈ VALID_API_KEYS) :
    historyLen (chat_handler sessions request x_api_key now r).sessions
        request.sessionId =
      historyLen sessions request.sessionId +
        (if (sessionBefore sessions request).scam_detected ||
            detect_scam request.message.text then 2 else 1) ∧
    historyLen sessions request.sessionId ≤
      historyLen (chat_handler sessions request x_api_key now r).sessions
        request.sessionId := by
  have heq := chat_handler_historyLen sessions request x_api_key now r hk
  refine ⟨heq, ?_⟩
  rw [heq]
  split <;> omega

/-- Witness for claim C6 at a concrete benign first message. -/
theorem chat_handler_history_growth_witness :
    (("sk_test_123456789").toList ∈ VALID_API_KEYS) ∧
    (historyLen (chat_handler [] benignReq (("sk_test_123456789").toList)
        (("n").toList) 0).sessions benignReq.sessionId =
      historyLen [] benignReq.sessionId +
        (if (sessionBefore [] benignReq).scam_detected ||
            detect_scam benignReq.message.text then 2 else 1) ∧
    historyLen [] benignReq.sessionId ≤
      historyLen (chat_handler [] benignReq (("sk_test_123456789").toList)
        (("n").toList) 0).sessions benignReq.sessionId) :=
  ⟨by decide,
   chat_handler_history_growth [] benignReq (("sk_test_123456789").toList)
     (("n").toList) 0 (by decide)⟩

/-- Claim C7: a request with a credential outside the allow-list is rejected
with HTTP 401 and the session store is left exactly as it was — no session
is created and none is mutated. -/
theorem chat_handler_unauthorized (sessions : Store)
    (request : HoneyPotRequest) (x_api_key now : List Char) (r : Nat)
    (hk : x_api_key ∉ VALID_API_KEYS) :
    (chat_handler sessions request x_api_key now r).sessions = sessions ∧
    (chat_handler sessions request x_api_key now r).response =
      Except.error 401 := by
  simp only [chat_handler]
  rw [if_pos hk]
  exact ⟨rfl, rfl⟩

/-- Witness for claim C7 at a concrete unauthorized call on an empty store. -/
theorem chat_handler_unauthorized_witness :
    (("wrong_key").toList ∉ VALID_API_KEYS) ∧
    ((chat_handler [] benignReq (("wrong_key").toList)
        (("n").toList) 0).sessions = [] ∧
    (chat_handler [] benignReq (("wrong_key").toList)
        (("n").toList) 0).response = Except.error 401) :=
  ⟨by decide,
   chat_handler_unauthorized [] benignReq (("wrong_key").toList)
     (("n").toList) 0 (by decide)⟩

/-- Claim C10: once the stored `scam_detected` flag of the request's session
is true, an authorized inbound message always takes the engaged path — the
response carries the strategist-generated reply and the stored history grows
by 2 (inbound message plus agent reply) — regardless of that message's own
classification. -/
theorem chat_handler_engaged_when_flag (sessions : Store)
    (request : HoneyPotRequest) (x_api_key now : List Char) (r : Nat)
    (hk : x_api_key ∈ VALID_API_KEYS)
    (hb : (sessionBefore sessions request).scam_detected = true) :
    (chat_handler sessions request x_api_key now r).response =
      Except.ok ⟨("success").toList,
        generate_agent_reply request.message.text
          request.conversationHistory r⟩ ∧
    historyLen (chat_handler sessions request x_api_key now r).sessions
        request.sessionId =
      historyLen sessions request.sessionId + 2 := by
  constructor
  · simp only [chat_handler]
    rw [if_neg (not_not_intro hk)]
    cases hd : detect_scam request.message.text
    · simp [hb]
    · simp [hb]
  · have heq := chat_handler_historyLen sessions request x_api_key now r hk
    rw [heq, hb]
    simp

/-- Witness for claim C10: the benign text `hello friend` (no scam
indicator) still gets the engaged-path reply once the session flag is set. -/
theorem chat_handler_engaged_when_flag_witness :
    (("sk_test_123456789").toList ∈ VALID_API_KEYS) ∧
    (sessionBefore storeWithTwo helloReq).scam_detected = true ∧
    ((chat_handler storeWithTwo helloReq (("sk_test_123456789").toList)
        (("n").toList) 0).response =
      Except.ok ⟨("success").toList,
        generate_agent_reply helloReq.message.text
          helloReq.conversationHistory 0⟩ ∧
    historyLen (chat_handler storeWithTwo helloReq
        (("sk_test_123456789").toList) (("n").toList) 0).sessions
        helloReq.sessionId =
      historyLen storeWithTwo helloReq.sessionId + 2) :=
  ⟨by decide, by decide,
   chat_handler_engaged_when_flag storeWithTwo helloReq
     (("sk_test_123456789").toList) (("n").toList) 0 (by decide) (by decide)⟩
